import Mathlib

/-!
Verification development for the leaf-type catalog of zschema (src/leaves.py).

The source is Python 2.  We shallowly embed the module:

* the closed set of leaf classes becomes the inductive type LeafKind;
* a Python runtime value becomes PyVal, whose exact runtime class
  (what Python's type(v) returns) is PyVal.cls : PyClass.  In Python 2,
  bool, int and long are distinct results of type(), even though bool is
  a subclass of int; the source checks "type(value) not in EXPECTED_CLASS",
  i.e. exact class identity, which PyVal.cls models directly.  Float
  values carry only their str() rendering: no leaf inspects a float's
  numeric content, only its class;
* class attributes (EXPECTED_CLASS, BQ_TYPE, ES_TYPE, ES_INDEX_TYPE, BITS,
  VALID, INVALID) become total or partial tables on LeafKind, with Python
  inheritance already resolved (e.g. Short inherits BQ_TYPE "INTEGER" from
  Integer, Double inherits VALID and INVALID from Float, IndexedBinary
  inherits the hex rule from Binary).  An attribute a class neither defines
  nor inherits (ES_INDEX_TYPE on most kinds, BITS outside the integer
  family) is modelled as Option.none: reading it in Python would raise
  AttributeError;
* raising DataValidationException becomes returning Except.error.  The
  exception is constructed with several positional arguments (a printf
  style format string that is never actually interpolated, followed by the
  data); we keep that argument list as DVError.args, each argument in its
  str() rendering, and DVError.message models what str(exception) shows the
  caller: the single argument alone, or the rendering of the argument tuple;
* the two external collaborators are parameters, bundled in Externals.
  Modelled from the spec: keys.py (the Keyable key-formatting mixin giving
  key_to_string and key_to_bq) is not under src/; the spec says only that
  the core delegates name formatting to it, so both formatters are opaque
  String -> String parameters.  Likewise dateutil.parser.parse is a third
  party natural-language date parser; the spec treats it as an external
  synchronous collaborator, so it is an opaque PyVal -> Bool parameter
  (true when parsing succeeds).
-/

/-- The closed catalog of concrete leaf classes defined in src/leaves.py. -/
inductive LeafKind
  | DateTime
  | AnalyzedString
  | String
  | Binary
  | IndexedBinary
  | Boolean
  | Double
  | Float
  | Long
  | Short
  | Byte
  | Integer
  | IPv4Address
deriving DecidableEq, Repr

/-- Python 2 runtime classes relevant to the module, as returned by type(v):
bool, int and long are pairwise distinct classes. -/
inductive PyClass
  | int
  | long
  | str
  | float
  | bool
deriving DecidableEq, Repr

/-- Rendering of a class name, Python's value.__class__.__name__. -/
def PyClass.clsName : PyClass → String
  | .int => "int"
  | .long => "long"
  | .str => "str"
  | .float => "float"
  | .bool => "bool"

/-- A Python runtime value of one of the classes the module handles.
Ints and longs carry mathematical integers (Python 2 ints are arbitrary
precision once they overflow into long, and the module only compares them
with <, >); floats carry only their str() rendering, since no leaf ever
looks at a float beyond its class. -/
inductive PyVal
  | int (n : Int)
  | long (n : Int)
  | str (s : String)
  | float (repr : String)
  | bool (b : Bool)
deriving DecidableEq, Repr

/-- The exact runtime class of a value: Python's type(v). -/
def PyVal.cls : PyVal → PyClass
  | .int _ => .int
  | .long _ => .long
  | .str _ => .str
  | .float _ => .float
  | .bool _ => .bool

/-- Python's str(v) for the values above.  str() of a Python 2 long has no
trailing L marker, and str() of a bool is True or False. -/
def PyVal.toStr : PyVal → String
  | .int n => toString n
  | .long n => toString n
  | .str s => s
  | .float r => r
  | .bool b => if b then "True" else "False"

/-- The integer content of an int or long value, none on other classes. -/
def PyVal.toInt? : PyVal → Option Int
  | .int n => some n
  | .long n => some n
  | _ => none

/-- The VALID_ES_INDEX_TYPES constant of the module. -/
def VALID_ES_INDEX_TYPES : List String := ["analyzed", "not_analyzed", "no"]

/-- The EXPECTED_CLASS attribute of each leaf class (inheritance resolved:
Byte and Short inherit Integer's, Double inherits Float's, IndexedBinary
inherits Binary's; Long overrides with [int, long]). -/
def EXPECTED_CLASS : LeafKind → List PyClass
  | .DateTime => [.str, .int]
  | .AnalyzedString => [.str]
  | .String => [.str]
  | .Binary => [.str]
  | .IndexedBinary => [.str]
  | .Boolean => [.bool]
  | .Double => [.float]
  | .Float => [.float]
  | .Long => [.int, .long]
  | .Short => [.int]
  | .Byte => [.int]
  | .Integer => [.int]
  | .IPv4Address => [.str]

/-- The BQ_TYPE attribute of each leaf class (inheritance resolved: Short
and Byte inherit Integer's "INTEGER"; Long overrides with "DOUBLE"). -/
def BQ_TYPE : LeafKind → String
  | .DateTime => "TIMESTAMP"
  | .AnalyzedString => "STRING"
  | .String => "STRING"
  | .Binary => "STRING"
  | .IndexedBinary => "STRING"
  | .Boolean => "BOOLEAN"
  | .Double => "DOUBLE"
  | .Float => "DOUBLE"
  | .Long => "DOUBLE"
  | .Short => "INTEGER"
  | .Byte => "INTEGER"
  | .Integer => "INTEGER"
  | .IPv4Address => "STRING"

/-- The ES_TYPE attribute of each leaf class. -/
def ES_TYPE : LeafKind → String
  | .DateTime => "datetime"
  | .AnalyzedString => "string"
  | .String => "string"
  | .Binary => "binary"
  | .IndexedBinary => "binary"
  | .Boolean => "boolean"
  | .Double => "double"
  | .Float => "float"
  | .Long => "long"
  | .Short => "short"
  | .Byte => "byte"
  | .Integer => "integer"
  | .IPv4Address => "ip"

/-- The ES_INDEX_TYPE attribute where the class (or an ancestor) defines
one.  Neither Leaf nor Keyable defines a default, so for every other kind
the attribute is simply absent (reading it would raise AttributeError);
that absence is Option.none. -/
def ES_INDEX_TYPE : LeafKind → Option String
  | .AnalyzedString => some "analyzed"
  | .String => some "not_analyzed"
  | .Binary => some "no"
  | .IndexedBinary => some "not_analyzed"
  | _ => none

/-- The BITS attribute: defined by Integer (32) and overridden by Byte (8),
Short (16) and Long (64); absent on every class outside the integer
family. -/
def BITS : LeafKind → Option Nat
  | .Integer => some 32
  | .Byte => some 8
  | .Short => some 16
  | .Long => some 64
  | _ => none

/-- The class name string, Python's leaf.__name__, used by the unit tests
as the field name. -/
def kindName : LeafKind → String
  | .DateTime => "DateTime"
  | .AnalyzedString => "AnalyzedString"
  | .String => "String"
  | .Binary => "Binary"
  | .IndexedBinary => "IndexedBinary"
  | .Boolean => "Boolean"
  | .Double => "Double"
  | .Float => "Float"
  | .Long => "Long"
  | .Short => "Short"
  | .Byte => "Byte"
  | .Integer => "Integer"
  | .IPv4Address => "IPv4Address"

/-- The DataValidationException as the caller receives it: the tuple of
constructor arguments, each in its str() rendering.  The source never
interpolates the format string; Python keeps all positional arguments in
exception.args. -/
structure DVError where
  args : List String
deriving DecidableEq, Repr

/-- Rendering of an argument tuple, comma separated. -/
def joinArgs : List String → String
  | [] => ""
  | [a] => a
  | a :: rest => a ++ ", " ++ joinArgs rest

/-- What str(exception) gives the caller in Python 2: the sole argument
when there is exactly one, otherwise the rendering of the whole argument
tuple (so every argument appears in the message). -/
def DVError.message (e : DVError) : String :=
  match e.args with
  | [m] => m
  | args => "(" ++ joinArgs args ++ ")"

/-- Rendering of str(EXPECTED_CLASS): the class list as Python shows it. -/
def classListStr (cs : List PyClass) : String :=
  "[" ++ joinArgs (cs.map PyClass.clsName) ++ "]"

/-- The external collaborators of the module, as opaque parameters.
Modelled from the spec: keys.py (Keyable) is absent from src/, providing
key_to_string and key_to_bq, the per-backend name formatters the core
must call and never reimplement; dateutil.parser.parse is the external
natural-language date parser, abstracted as its success predicate. -/
structure Externals where
  keyToString : String → String
  keyToBq : String → String
  dateParse : PyVal → Bool

/-- True on characters matched by the regex class [A-Fa-f0-9]. -/
def isHexChar (c : Char) : Bool :=
  ('A' ≤ c && c ≤ 'F') || ('a' ≤ c && c ≤ 'f') || c.isDigit

/-- Consume exactly n digit characters, returning the rest of the input,
none when fewer than n digits are available.  Building block for the
regex piece \d{n}. -/
def dropDigits : Nat → List Char → Option (List Char)
  | 0, s => some s
  | _ + 1, [] => none
  | n + 1, c :: s => if c.isDigit then dropDigits n s else none

/-- Try the continuation k after consuming exactly n digits. -/
def tryDigits (n : Nat) (k : List Char → Bool) (s : List Char) : Bool :=
  match dropDigits n s with
  | some r => k r
  | none => false

/-- Backtracking matcher for the regex piece \d{1,3} followed by
continuation k: greedily try three digits, then two, then one, exactly as
the Python regex engine does. -/
def matchD13 (k : List Char → Bool) (s : List Char) : Bool :=
  tryDigits 3 k s || tryDigits 2 k s || tryDigits 1 k s

/-- Matcher for a literal dot followed by continuation k. -/
def matchDot (k : List Char → Bool) : List Char → Bool
  | c :: s => if c = '.' then k s else false
  | [] => false

/-- IP_REGEX.match: does some prefix of the input match the pattern
(\d{1,3}\.){3}\d{1,3}?  This is re.match semantics, anchored at the start
of the string only. -/
def ipRegexMatch (s : List Char) : Bool :=
  matchD13 (matchDot (matchD13 (matchDot (matchD13 (matchDot
    (matchD13 (fun _ => true))))))) s

/-- The _is_ipv4_addr helper of IPv4Address. -/
def is_ipv4_addr (ip : String) : Bool :=
  ipRegexMatch ip.data

/-- B64_REGEX.match: does some prefix of the input match [A-Fa-f0-9]+ ?
The greedy run the engine takes succeeds exactly when it is nonempty. -/
def hexRegexMatch (s : List Char) : Bool :=
  !(s.takeWhile isHexChar).isEmpty

/-- The _is_base64 helper of Binary (despite its name it checks for a run
of hex characters). -/
def is_base64 (data : String) : Bool :=
  hexRegexMatch data.data

/-- Integer._validate, shared by the whole integer family and parameterized
by the BITS attribute: value greater than 2^BITS - 1 raises, then value
smaller than -2^BITS + 1 raises. -/
def Integer_validate (bits : Nat) (name : String) (value : Int) :
    Except DVError Unit :=
  let max_ : Int := 2 ^ bits - 1
  let min_ : Int := -(2 ^ bits : Int) + 1
  if value > max_ then
    .error ⟨["%s: %s is larger than max (%s)", name, toString value,
             toString max_]⟩
  else if value < min_ then
    .error ⟨["%s: %s is smaller than min (%s)", name, toString value,
             toString min_]⟩
  else
    .ok ()

/-- IPv4Address._validate. -/
def IPv4_validate (name : String) (value : String) : Except DVError Unit :=
  if is_ipv4_addr value then .ok ()
  else .error ⟨["%s: the value %s is not a valid IPv4 address", name, value]⟩

/-- Binary._validate (inherited unchanged by IndexedBinary). -/
def Binary_validate (name : String) (value : String) : Except DVError Unit :=
  if is_base64 value then .ok ()
  else .error ⟨["%s: the value %s is not valid Base64", name, value]⟩

/-- DateTime._validate: any exception from dateutil.parser.parse is turned
into a DataValidationException. -/
def DateTime_validate (dp : PyVal → Bool) (name : String) (value : PyVal) :
    Except DVError Unit :=
  if dp value then .ok ()
  else .error ⟨["%s: %s is not valid timestamp", name, value.toStr]⟩

/-- Phase 2 of validation: the per-class _validate hook.  Kinds without a
_validate attribute fall through (the hasattr check in Leaf.validate fails
and phase 2 is skipped).  The value patterns that cannot occur after the
phase 1 class check also fall through. -/
def leafExtra (dp : PyVal → Bool) (k : LeafKind) (name : String)
    (v : PyVal) : Except DVError Unit :=
  match k, v with
  | .Integer, .int n => Integer_validate 32 name n
  | .Integer, .long n => Integer_validate 32 name n
  | .Byte, .int n => Integer_validate 8 name n
  | .Byte, .long n => Integer_validate 8 name n
  | .Short, .int n => Integer_validate 16 name n
  | .Short, .long n => Integer_validate 16 name n
  | .Long, .int n => Integer_validate 64 name n
  | .Long, .long n => Integer_validate 64 name n
  | .IPv4Address, .str s => IPv4_validate name s
  | .Binary, .str s => Binary_validate name s
  | .IndexedBinary, .str s => Binary_validate name s
  | .DateTime, v => DateTime_validate dp name v
  | _, _ => .ok ()

/-- The exception Leaf.validate raises on a class mismatch, with its four
data arguments after the format string: the formatted field name, the
expected class list, str(value), and value.__class__.__name__. -/
def classMismatchError (ext : Externals) (k : LeafKind) (name : String)
    (v : PyVal) : DVError :=
  ⟨["class mismatch for %s: expected %s, %s has class %s",
    ext.keyToString name, classListStr (EXPECTED_CLASS k), v.toStr,
    v.cls.clsName]⟩

/-- Leaf.validate: phase 1 rejects any value whose exact runtime class is
not in EXPECTED_CLASS; phase 2 runs the _validate hook when the class
defines one, on the formatted field name. -/
def validate (ext : Externals) (k : LeafKind) (name : String) (v : PyVal) :
    Except DVError Unit :=
  if v.cls ∈ EXPECTED_CLASS k then
    leafExtra ext.dateParse k (ext.keyToString name) v
  else
    .error (classMismatchError ext k name v)

/-- Leaf.to_bigquery: the warehouse schema fragment, a mapping with exactly
the keys name, type and mode. -/
def to_bigquery (ext : Externals) (k : LeafKind) (required : Bool)
    (name : String) : List (String × String) :=
  [("name", ext.keyToBq name), ("type", BQ_TYPE k),
   ("mode", if required then "REQUIRED" else "NULLABLE")]

/-- The apostrophe character, kept out of string literals. -/
def apos : String := (Char.ofNat 39).toString

/-- The VALID class attribute of each leaf (inheritance resolved: Double
inherits Float's 10.0, IndexedBinary inherits Binary's). -/
def VALID : LeafKind → PyVal
  | .DateTime => .str "Wed Jul  8 08:52:01 EDT 2015"
  | .AnalyzedString => .str "asdf"
  | .String => .str "asdf"
  | .Binary => .str "03F87824"
  | .IndexedBinary => .str "03F87824"
  | .Boolean => .bool true
  | .Double => .float "10.0"
  | .Float => .float "10.0"
  | .Long => .long 10
  | .Short => .int 0xFFFF
  | .Byte => .int 34
  | .Integer => .int 234234252
  | .IPv4Address => .str "141.212.120.0"

/-- The INVALID class attribute of each leaf (inheritance resolved; the
Float string is I'm a string! with a real apostrophe). -/
def INVALID : LeafKind → PyVal
  | .DateTime => .str "Wed DNE  35 08:52:01 EDT 2015"
  | .AnalyzedString => .int 23
  | .String => .int 23
  | .Binary => .str "normal"
  | .IndexedBinary => .str "normal"
  | .Boolean => .int 0
  | .Double => .str ("I" ++ apos ++ "m a string!")
  | .Float => .str ("I" ++ apos ++ "m a string!")
  | .Long => .long (2 ^ 68)
  | .Short => .int (2 ^ 16)
  | .Byte => .int (2 ^ 8 + 5)
  | .Integer => .int 8589934592
  | .IPv4Address => .str "my string"

/-- The VALID_LEAVES catalog list, in source order. -/
def VALID_LEAVES : List LeafKind :=
  [.DateTime, .AnalyzedString, .String, .Binary, .IndexedBinary, .Boolean,
   .Double, .Float, .Long, .Short, .Byte, .Integer, .IPv4Address]

/-- Substring containment: sub occurs contiguously inside big. -/
def StrContains (big sub : String) : Prop :=
  ∃ p q, big = p ++ (sub ++ q)

/-- Specification-side description of one group of the dotted-quad
pattern: a nonempty run of at most three digit characters. -/
def DigitGroup (d : List Char) : Prop :=
  d ≠ [] ∧ d.length ≤ 3 ∧ ∀ c ∈ d, c.isDigit

/-- Specification-side description of the claim about IPv4Address: the
string starts with four digit groups of one to three digits separated by
dots; anything at all may follow. -/
def DottedQuadStart (s : List Char) : Prop :=
  ∃ d₁ d₂ d₃ d₄ t, DigitGroup d₁ ∧ DigitGroup d₂ ∧ DigitGroup d₃ ∧
    DigitGroup d₄ ∧
    s = d₁ ++ '.' :: (d₂ ++ '.' :: (d₃ ++ '.' :: (d₄ ++ t)))

/-- A concrete instantiation of the external collaborators, used to
exercise the parameterized theorems on closed inputs: identity name
formatters and a date parser accepting exactly the canonical DateTime
example. -/
def idExt : Externals :=
  ⟨id, id, fun v => v == PyVal.str "Wed Jul  8 08:52:01 EDT 2015"⟩

/-- Helper: a validation result over Unit that is not success is a raised
error. -/
theorem except_unit_not_ok {x : Except DVError Unit} (h : x ≠ .ok ()) :
    ∃ e, x = .error e := by
  cases x with
  | ok u => cases u; exact absurd rfl h
  | error e => exact ⟨e, rfl⟩

/-- C2: for every leaf kind and every value whose runtime class is not a
member of acceptedClasses, validate raises the class-mismatch
DataValidationError, regardless of the value's content and before any
type-specific rule can run. -/
theorem class_check_always_first (ext : Externals) (k : LeafKind)
    (name : String) (v : PyVal) (h : v.cls ∉ EXPECTED_CLASS k) :
    validate ext k name v = .error (classMismatchError ext k name v) := by
  simp [validate, h]

/-- Witness for C2 at a concrete input: an int handed to a text leaf. -/
theorem class_check_always_first_witness :
    validate idExt .AnalyzedString "fld" (.int 23) =
      .error (classMismatchError idExt .AnalyzedString "fld" (.int 23)) :=
  class_check_always_first idExt .AnalyzedString "fld" (.int 23) (by decide)

/-- C5: to_bigquery returns a mapping with exactly the three keys name,
type and mode; name holds the formatted field name, type the leaf's
warehouse tag, and mode is REQUIRED exactly when the required flag is set;
a required Integer field named age yields the claimed fragment. -/
theorem to_bigquery_shape (ext : Externals) (k : LeafKind) (required : Bool)
    (name : String) :
    (to_bigquery ext k required name).map Prod.fst =
      ["name", "type", "mode"] ∧
    (to_bigquery ext k required name).lookup "name" =
      some (ext.keyToBq name) ∧
    (to_bigquery ext k required name).lookup "type" = some (BQ_TYPE k) ∧
    (to_bigquery ext k required name).lookup "mode" =
      some (if required then "REQUIRED" else "NULLABLE") ∧
    to_bigquery ext .Integer true "age" =
      [("name", ext.keyToBq "age"), ("type", "INTEGER"),
       ("mode", "REQUIRED")] := by
  refine ⟨rfl, ?_, ?_, ?_, rfl⟩ <;> simp [to_bigquery, List.lookup]

/-- C9: Long, although in the integer family, overrides the warehouse type
tag: to_bigquery reports DOUBLE for Long while Integer, Byte and Short
report INTEGER. -/
theorem long_bq_type_override (ext : Externals) (required : Bool)
    (name : String) :
    (to_bigquery ext .Long required name).lookup "type" = some "DOUBLE" ∧
    (to_bigquery ext .Integer required name).lookup "type" =
      some "INTEGER" ∧
    (to_bigquery ext .Byte required name).lookup "type" = some "INTEGER" ∧
    (to_bigquery ext .Short required name).lookup "type" =
      some "INTEGER" := by
  refine ⟨?_, ?_, ?_, ?_⟩ <;> simp [to_bigquery, List.lookup, BQ_TYPE]

/-- C10: membership in acceptedClasses is exact runtime class identity:
every integer-family leaf rejects every boolean value (bool is a distinct
runtime class from int in Python 2 despite being an int subtype), and the
Boolean leaf accepts exactly the values of class bool, so it rejects the
integers 0 and 1 in particular. -/
theorem exact_class_identity (ext : Externals) (name : String) (b : Bool) :
    validate ext .Integer name (.bool b) =
      .error (classMismatchError ext .Integer name (.bool b)) ∧
    validate ext .Byte name (.bool b) =
      .error (classMismatchError ext .Byte name (.bool b)) ∧
    validate ext .Short name (.bool b) =
      .error (classMismatchError ext .Short name (.bool b)) ∧
    validate ext .Long name (.bool b) =
      .error (classMismatchError ext .Long name (.bool b)) ∧
    (∀ v : PyVal, (validate ext .Boolean name v = .ok ()) ↔
      v.cls = PyClass.bool) := by
  refine ⟨?_, ?_, ?_, ?_, ?_⟩
  · simp [validate, EXPECTED_CLASS, PyVal.cls]
  · simp [validate, EXPECTED_CLASS, PyVal.cls]
  · simp [validate, EXPECTED_CLASS, PyVal.cls]
  · simp [validate, EXPECTED_CLASS, PyVal.cls]
  · intro v
    cases v <;>
      simp [validate, EXPECTED_CLASS, PyVal.cls, leafExtra]

/-- C7, counterexample: it is not true that every leaf kind in the catalog
yields an index mode; Integer, like most kinds, defines no ES_INDEX_TYPE
attribute, and neither Leaf nor any ancestor supplies a default. -/
theorem index_mode_no_default :
    ¬ (∀ k : LeafKind, ∃ m, ES_INDEX_TYPE k = some m ∧
        m ∈ VALID_ES_INDEX_TYPES) := by
  intro h
  rcases h .Integer with ⟨m, hm, -⟩
  simp [ES_INDEX_TYPE] at hm

/-- C7, amended: only AnalyzedString, String, Binary and IndexedBinary
define an index mode (analyzed, not_analyzed, no and not_analyzed
respectively), each one of the three valid modes; every other kind in the
catalog defines no ES_INDEX_TYPE at all, so no kind defaults to
analyzed. -/
theorem index_mode_amended :
    (∀ k m, ES_INDEX_TYPE k = some m → m ∈ VALID_ES_INDEX_TYPES) ∧
    ES_INDEX_TYPE .AnalyzedString = some "analyzed" ∧
    ES_INDEX_TYPE .String = some "not_analyzed" ∧
    ES_INDEX_TYPE .Binary = some "no" ∧
    ES_INDEX_TYPE .IndexedBinary = some "not_analyzed" ∧
    (∀ k : LeafKind, k ≠ .AnalyzedString → k ≠ .String → k ≠ .Binary →
      k ≠ .IndexedBinary → ES_INDEX_TYPE k = none) := by
  refine ⟨?_, rfl, rfl, rfl, rfl, ?_⟩
  · intro k m hm
    cases k <;> simp [ES_INDEX_TYPE] at hm <;>
      simp [← hm, VALID_ES_INDEX_TYPES]
  · intro k h1 h2 h3 h4
    cases k <;>
      first
        | rfl
        | exact absurd rfl h1
        | exact absurd rfl h2
        | exact absurd rfl h3
        | exact absurd rfl h4

/-- Witness for the amended C7: a defining kind's mode is valid, and a
non-defining kind has no index mode. -/
theorem index_mode_amended_witness :
    "analyzed" ∈ VALID_ES_INDEX_TYPES ∧ ES_INDEX_TYPE .Integer = none :=
  ⟨index_mode_amended.1 .AnalyzedString "analyzed" rfl,
   index_mode_amended.2.2.2.2.2 .Integer (by decide) (by decide)
     (by decide) (by decide)⟩

/-- The shared integer rule succeeds exactly on the asymmetric interval
from -2^bits + 1 to 2^bits - 1, and raises outside it. -/
theorem Integer_validate_ok_iff (bits : Nat) (name : String) (n : Int) :
    (Integer_validate bits name n = .ok ()) ↔
      (-(2 ^ bits : Int) + 1 ≤ n ∧ n ≤ 2 ^ bits - 1) := by
  simp only [Integer_validate]
  split
  · next h => simp only [reduceCtorEq, false_iff]; omega
  · split
    · next h => simp only [reduceCtorEq, false_iff]; omega
    · next h1 h2 => simp only [true_iff]; omega

/-- C1: for every integer-family leaf (Integer 32, Byte 8, Short 16,
Long 64 bits) and every value of accepted integer class, validate succeeds
exactly when -2^bitWidth + 1 <= value <= 2^bitWidth - 1, and raises a
DataValidationError outside that interval. -/
theorem integer_family_range (ext : Externals) (k : LeafKind) (b : Nat)
    (hb : BITS k = some b) (name : String) (v : PyVal) (n : Int)
    (hc : v.cls ∈ EXPECTED_CLASS k) (hn : v.toInt? = some n) :
    ((validate ext k name v = .ok ()) ↔
      (-(2 ^ b : Int) + 1 ≤ n ∧ n ≤ 2 ^ b - 1)) ∧
    (¬ (-(2 ^ b : Int) + 1 ≤ n ∧ n ≤ 2 ^ b - 1) →
      ∃ e, validate ext k name v = .error e) := by
  have main : (validate ext k name v = .ok ()) ↔
      (-(2 ^ b : Int) + 1 ≤ n ∧ n ≤ 2 ^ b - 1) := by
    cases k <;> simp only [BITS, Option.some.injEq, reduceCtorEq] at hb <;>
      subst hb <;>
      cases v <;> simp only [PyVal.toInt?, Option.some.injEq,
        reduceCtorEq] at hn <;> subst hn <;>
      simp only [EXPECTED_CLASS, PyVal.cls, List.mem_cons,
        List.not_mem_nil, or_false, reduceCtorEq] at hc <;>
      simp only [validate, EXPECTED_CLASS, PyVal.cls, leafExtra,
        List.mem_cons, List.not_mem_nil, or_false, or_true, if_true,
        reduceCtorEq, reduceIte] <;>
      exact Integer_validate_ok_iff _ _ _
  refine ⟨main, fun hout => ?_⟩
  exact except_unit_not_ok (fun hok => hout (main.mp hok))

/-- Witness for C1: the Byte boundary value 255 is accepted. -/
theorem integer_family_range_witness :
    (validate idExt .Byte "age" (.int 255) = .ok ()) ↔
      (-(2 ^ 8 : Int) + 1 ≤ 255 ∧ (255 : Int) ≤ 2 ^ 8 - 1) :=
  (integer_family_range idExt .Byte 8 rfl "age" (.int 255) 255 (by decide)
    rfl).1

/-- The greedy matcher for one or more hex characters succeeds exactly
when the list begins with a hex character. -/
theorem hexRegexMatch_iff (l : List Char) :
    hexRegexMatch l = true ↔ ∃ c t, l = c :: t ∧ isHexChar c = true := by
  cases l with
  | nil => simp [hexRegexMatch]
  | cons c t =>
    by_cases hc : isHexChar c
    · simp [hexRegexMatch, List.takeWhile_cons, hc]
    · simp [hexRegexMatch, List.takeWhile_cons, hc]

/-- The hex rule succeeds exactly when the string begins with a character
from [A-Fa-f0-9]; nothing beyond the first character matters. -/
theorem Binary_validate_ok_iff (name s : String) :
    (Binary_validate name s = .ok ()) ↔
      ∃ c t, s.data = c :: t ∧ isHexChar c = true := by
  rw [← hexRegexMatch_iff]
  simp only [Binary_validate, is_base64]
  split
  · next h => simp [h]
  · next h => simp [h]

/-- C4: the Binary and IndexedBinary leaves accept exactly the strings
that begin with at least one hex character, even when trailing characters
are not hex (prefix match only), and raise on any other string, e.g. the
string normal. -/
theorem binary_hex_laxity (ext : Externals) (name s : String) :
    ((validate ext .Binary name (.str s) = .ok ()) ↔
      ∃ c t, s.data = c :: t ∧ isHexChar c = true) ∧
    ((validate ext .IndexedBinary name (.str s) = .ok ()) ↔
      ∃ c t, s.data = c :: t ∧ isHexChar c = true) ∧
    (∃ e, validate ext .Binary name (.str "normal") = .error e) := by
  have hB : ∀ u : String, validate ext .Binary name (.str u) =
      Binary_validate (ext.keyToString name) u := by
    intro u; simp [validate, EXPECTED_CLASS, PyVal.cls, leafExtra]
  have hI : validate ext .IndexedBinary name (.str s) =
      Binary_validate (ext.keyToString name) s := by
    simp [validate, EXPECTED_CLASS, PyVal.cls, leafExtra]
  refine ⟨?_, ?_, ?_⟩
  · rw [hB]; exact Binary_validate_ok_iff _ _
  · rw [hI]; exact Binary_validate_ok_iff _ _
  · refine except_unit_not_ok ?_
    rw [hB, Ne, Binary_validate_ok_iff, ← hexRegexMatch_iff]
    decide

/-- Characterization of dropDigits: it succeeds with rest r exactly when
the input is a block of exactly n digit characters followed by r. -/
theorem dropDigits_eq_some_iff (n : Nat) (s r : List Char) :
    dropDigits n s = some r ↔
      ∃ d, s = d ++ r ∧ d.length = n ∧ ∀ c ∈ d, c.isDigit := by
  induction n generalizing s with
  | zero =>
    simp only [dropDigits, Option.some.injEq]
    constructor
    · rintro rfl; exact ⟨[], rfl, rfl, by simp⟩
    · rintro ⟨d, hd, hlen, -⟩
      rw [List.length_eq_zero] at hlen
      subst hlen
      simpa using hd
  | succ n ih =>
    cases s with
    | nil =>
      simp only [dropDigits, reduceCtorEq, false_iff, not_exists]
      rintro d ⟨hd, hlen, -⟩
      cases d with
      | nil => simp at hlen
      | cons c d' => simp at hd
    | cons c s' =>
      simp only [dropDigits]
      by_cases hc : c.isDigit
      · rw [if_pos hc, ih]
        constructor
        · rintro ⟨d, rfl, hlen, hdig⟩
          refine ⟨c :: d, rfl, by simp [hlen], ?_⟩
          intro x hx
          rcases List.mem_cons.mp hx with rfl | hx
          · exact hc
          · exact hdig x hx
        · rintro ⟨d, hd, hlen, hdig⟩
          cases d with
          | nil => simp at hlen
          | cons c' d' =>
            rw [List.cons_append] at hd
            injection hd with h1 h2
            subst h1
            exact ⟨d', h2, by simpa using hlen,
              fun x hx => hdig x (List.mem_cons_of_mem _ hx)⟩
      · rw [if_neg hc]
        simp only [reduceCtorEq, false_iff, not_exists]
        rintro d ⟨hd, hlen, hdig⟩
        cases d with
        | nil => simp at hlen
        | cons c' d' =>
          rw [List.cons_append] at hd
          injection hd with h1 h2
          exact hc (h1.symm ▸ hdig c' (List.mem_cons_self _ _))

/-- Characterization of one backtracking step over a fixed digit count. -/
theorem tryDigits_eq_true_iff (n : Nat) (k : List Char → Bool)
    (s : List Char) :
    tryDigits n k s = true ↔
      ∃ d r, s = d ++ r ∧ d.length = n ∧ (∀ c ∈ d, c.isDigit) ∧
        k r = true := by
  simp only [tryDigits]
  cases h : dropDigits n s with
  | none =>
    simp only [reduceCtorEq, false_iff, not_exists]
    rintro d r ⟨hd, hlen, hdig, -⟩
    have : dropDigits n s = some r :=
      (dropDigits_eq_some_iff n s r).mpr ⟨d, hd, hlen, hdig⟩
    rw [h] at this
    exact Option.noConfusion this
  | some r =>
    constructor
    · intro hk
      obtain ⟨d, hd, hlen, hdig⟩ := (dropDigits_eq_some_iff n s r).mp h
      exact ⟨d, r, hd, hlen, hdig, hk⟩
    · rintro ⟨d, r', hd, hlen, hdig, hk⟩
      have : dropDigits n s = some r' :=
        (dropDigits_eq_some_iff n s r').mpr ⟨d, hd, hlen, hdig⟩
      rw [h] at this
      injection this with h2
      rwa [h2]

/-- Characterization of the backtracking matcher for one to three digits:
some split into a digit group and a continuation succeeds. -/
theorem matchD13_eq_true_iff (k : List Char → Bool) (s : List Char) :
    matchD13 k s = true ↔
      ∃ d r, DigitGroup d ∧ s = d ++ r ∧ k r = true := by
  simp only [matchD13, Bool.or_eq_true, tryDigits_eq_true_iff]
  constructor
  · rintro ((⟨d, r, hs, hlen, hdig, hk⟩ | ⟨d, r, hs, hlen, hdig, hk⟩) |
      ⟨d, r, hs, hlen, hdig, hk⟩) <;>
      exact ⟨d, r, ⟨by rintro rfl; simp at hlen, by omega, hdig⟩, hs, hk⟩
  · rintro ⟨d, r, ⟨hne, hle, hdig⟩, hs, hk⟩
    have h1 : 1 ≤ d.length := by
      cases d with
      | nil => exact absurd rfl hne
      | cons a t => simp
    have h3 : d.length = 1 ∨ d.length = 2 ∨ d.length = 3 := by omega
    rcases h3 with h | h | h
    · exact Or.inr ⟨d, r, hs, h, hdig, hk⟩
    · exact Or.inl (Or.inr ⟨d, r, hs, h, hdig, hk⟩)
    · exact Or.inl (Or.inl ⟨d, r, hs, h, hdig, hk⟩)

/-- Characterization of the literal-dot matcher. -/
theorem matchDot_eq_true_iff (k : List Char → Bool) (s : List Char) :
    matchDot k s = true ↔ ∃ r, s = '.' :: r ∧ k r = true := by
  cases s with
  | nil => simp [matchDot]
  | cons c s' =>
    simp only [matchDot]
    by_cases hc : c = '.'
    · subst hc
      simp
    · rw [if_neg hc]
      simp only [Bool.false_eq_true, false_iff, not_exists]
      rintro r ⟨hd, -⟩
      injection hd with h1 h2
      exact hc h1

/-- The compiled IP_REGEX matcher agrees with the specification-side
dotted-quad-at-the-start description: re.match on (\d{1,3}\.){3}\d{1,3}
succeeds exactly when the string starts with four one-to-three digit
groups separated by dots. -/
theorem ipRegexMatch_iff_dottedQuad (s : List Char) :
    ipRegexMatch s = true ↔ DottedQuadStart s := by
  simp only [ipRegexMatch, DottedQuadStart]
  rw [matchD13_eq_true_iff]
  constructor
  · rintro ⟨d₁, r₁, hg₁, rfl, h₁⟩
    rw [matchDot_eq_true_iff] at h₁
    obtain ⟨r₂, rfl, h₂⟩ := h₁
    rw [matchD13_eq_true_iff] at h₂
    obtain ⟨d₂, r₃, hg₂, rfl, h₃⟩ := h₂
    rw [matchDot_eq_true_iff] at h₃
    obtain ⟨r₄, rfl, h₄⟩ := h₃
    rw [matchD13_eq_true_iff] at h₄
    obtain ⟨d₃, r₅, hg₃, rfl, h₅⟩ := h₄
    rw [matchDot_eq_true_iff] at h₅
    obtain ⟨r₆, rfl, h₆⟩ := h₅
    rw [matchD13_eq_true_iff] at h₆
    obtain ⟨d₄, r₇, hg₄, rfl, -⟩ := h₆
    exact ⟨d₁, d₂, d₃, d₄, r₇, hg₁, hg₂, hg₃, hg₄, rfl⟩
  · rintro ⟨d₁, d₂, d₃, d₄, t, hg₁, hg₂, hg₃, hg₄, rfl⟩
    refine ⟨d₁, _, hg₁, rfl, ?_⟩
    rw [matchDot_eq_true_iff]
    refine ⟨_, rfl, ?_⟩
    rw [matchD13_eq_true_iff]
    refine ⟨d₂, _, hg₂, rfl, ?_⟩
    rw [matchDot_eq_true_iff]
    refine ⟨_, rfl, ?_⟩
    rw [matchD13_eq_true_iff]
    refine ⟨d₃, _, hg₃, rfl, ?_⟩
    rw [matchDot_eq_true_iff]
    refine ⟨_, rfl, ?_⟩
    rw [matchD13_eq_true_iff]
    exact ⟨d₄, t, hg₄, rfl, rfl⟩

/-- The IPv4 rule succeeds exactly on strings starting with a dotted
quad. -/
theorem IPv4_validate_ok_iff (name u : String) :
    (IPv4_validate name u = .ok ()) ↔ DottedQuadStart u.data := by
  rw [← ipRegexMatch_iff_dottedQuad]
  simp only [IPv4_validate, is_ipv4_addr]
  split
  · next h => simp [h]
  · next h => simp [h]

/-- C3: IPv4Address accepts exactly the strings whose prefix matches the
dotted-quad pattern; in particular out-of-range octets such as
999.999.999.999 are accepted, and a non-matching string such as
my string raises. -/
theorem ipv4_dotted_quad_laxity (ext : Externals) (name s : String) :
    ((validate ext .IPv4Address name (.str s) = .ok ()) ↔
      DottedQuadStart s.data) ∧
    (validate ext .IPv4Address name (.str "999.999.999.999") = .ok ()) ∧
    (∃ e, validate ext .IPv4Address name (.str "my string") = .error e) := by
  have key : ∀ u : String, validate ext .IPv4Address name (.str u) =
      IPv4_validate (ext.keyToString name) u := by
    intro u; simp [validate, EXPECTED_CLASS, PyVal.cls, leafExtra]
  refine ⟨?_, ?_, ?_⟩
  · rw [key]; exact IPv4_validate_ok_iff _ _
  · rw [key]
    simp only [IPv4_validate]
    split
    · rfl
    · next h => exact absurd (by decide) h
  · refine except_unit_not_ok ?_
    rw [key, Ne, IPv4_validate_ok_iff, ← ipRegexMatch_iff_dottedQuad]
    decide

/-- Helper: containment is preserved by wrapping the containing string. -/
theorem strContains_within (p q s x : String) (h : StrContains s x) :
    StrContains (p ++ s ++ q) x := by
  obtain ⟨a, b, rfl⟩ := h
  exact ⟨p ++ a, b ++ q, by simp [String.append_assoc]⟩

/-- Helper: every member of an argument tuple occurs in its rendering. -/
theorem mem_joinArgs {x : String} :
    ∀ args : List String, x ∈ args → StrContains (joinArgs args) x := by
  intro args
  induction args with
  | nil => intro h; cases h
  | cons a rest ih =>
    intro h
    rcases List.mem_cons.mp h with rfl | hx
    · cases rest with
      | nil => exact ⟨"", "", by simp [joinArgs]⟩
      | cons b r =>
        exact ⟨"", ", " ++ joinArgs (b :: r),
          by simp [joinArgs, String.append_assoc]⟩
    · cases rest with
      | nil => cases hx
      | cons b r =>
        obtain ⟨p, q, hpq⟩ := ih hx
        exact ⟨(a ++ ", ") ++ p, q,
          by simp [joinArgs, hpq, String.append_assoc]⟩

/-- C8: whenever validate raises on a class mismatch, the message the
caller receives (str of the exception, which renders the whole argument
tuple) contains the formatted field name, the rendering of the expected
class set, the str rendering of the offending value, and the value's
actual class name. -/
theorem class_mismatch_message_contents (ext : Externals) (k : LeafKind)
    (name : String) (v : PyVal) (h : v.cls ∉ EXPECTED_CLASS k)
    (e : DVError) (he : validate ext k name v = .error e) :
    StrContains e.message (ext.keyToString name) ∧
    StrContains e.message (classListStr (EXPECTED_CLASS k)) ∧
    StrContains e.message v.toStr ∧
    StrContains e.message v.cls.clsName := by
  have hev : e = classMismatchError ext k name v := by
    unfold validate at he
    rw [if_neg h] at he
    injection he with h2
    exact h2.symm
  subst hev
  simp only [classMismatchError, DVError.message]
  refine ⟨strContains_within "(" ")" _ _ (mem_joinArgs _ ?_),
         strContains_within "(" ")" _ _ (mem_joinArgs _ ?_),
         strContains_within "(" ")" _ _ (mem_joinArgs _ ?_),
         strContains_within "(" ")" _ _ (mem_joinArgs _ ?_)⟩ <;> simp

/-- Witness for C8: an int handed to the String leaf; with an identity
formatter the message contains the raw field name, the class set, the
value and its class. -/
theorem class_mismatch_message_contents_witness :
    StrContains
      ((classMismatchError idExt .String "port" (.bool true)).message)
      "port" ∧
    StrContains
      ((classMismatchError idExt .String "port" (.bool true)).message)
      (classListStr (EXPECTED_CLASS .String)) ∧
    StrContains
      ((classMismatchError idExt .String "port" (.bool true)).message)
      (PyVal.bool true).toStr ∧
    StrContains
      ((classMismatchError idExt .String "port" (.bool true)).message)
      (PyVal.bool true).cls.clsName := by
  exact class_mismatch_message_contents idExt .String "port" (.bool true)
    (by decide) _ rfl

/-- C6: for every leaf kind in the catalog, validate accepts the kind's
canonical VALID example and raises DataValidationError on its canonical
INVALID example, provided the external date parser accepts the DateTime
VALID string and rejects the DateTime INVALID string (which is what
dateutil does on those inputs). -/
theorem catalog_valid_invalid (ext : Externals)
    (hdp1 : ext.dateParse (VALID .DateTime) = true)
    (hdp2 : ext.dateParse (INVALID .DateTime) = false) :
    ∀ k ∈ VALID_LEAVES,
      validate ext k (kindName k) (VALID k) = .ok () ∧
      ∃ e, validate ext k (kindName k) (INVALID k) = .error e := by
  simp only [VALID, INVALID] at hdp1 hdp2
  have hb1 : is_base64 "03F87824" = true := by decide
  have hb2 : is_base64 "normal" = false := by decide
  have hi1 : is_ipv4_addr "141.212.120.0" = true := by decide
  have hi2 : is_ipv4_addr "my string" = false := by decide
  intro k hk
  fin_cases hk
  · -- DateTime
    refine ⟨?_, ?_⟩
    · simp [validate, EXPECTED_CLASS, PyVal.cls, leafExtra, VALID,
        kindName, DateTime_validate, hdp1]
    · simp [validate, EXPECTED_CLASS, PyVal.cls, leafExtra, INVALID,
        kindName, DateTime_validate, hdp2]
  · -- AnalyzedString
    refine ⟨?_, ?_⟩
    · simp [validate, EXPECTED_CLASS, PyVal.cls, leafExtra, VALID, kindName]
    · simp [validate, EXPECTED_CLASS, PyVal.cls, INVALID, kindName]
  · -- String
    refine ⟨?_, ?_⟩
    · simp [validate, EXPECTED_CLASS, PyVal.cls, leafExtra, VALID, kindName]
    · simp [validate, EXPECTED_CLASS, PyVal.cls, INVALID, kindName]
  · -- Binary
    refine ⟨?_, ?_⟩
    · simp [validate, EXPECTED_CLASS, PyVal.cls, leafExtra, VALID,
        kindName, Binary_validate, hb1]
    · simp [validate, EXPECTED_CLASS, PyVal.cls, leafExtra, INVALID,
        kindName, Binary_validate, hb2]
  · -- IndexedBinary
    refine ⟨?_, ?_⟩
    · simp [validate, EXPECTED_CLASS, PyVal.cls, leafExtra, VALID,
        kindName, Binary_validate, hb1]
    · simp [validate, EXPECTED_CLASS, PyVal.cls, leafExtra, INVALID,
        kindName, Binary_validate, hb2]
  · -- Boolean
    refine ⟨?_, ?_⟩
    · simp [validate, EXPECTED_CLASS, PyVal.cls, leafExtra, VALID, kindName]
    · simp [validate, EXPECTED_CLASS, PyVal.cls, INVALID, kindName]
  · -- Double
    refine ⟨?_, ?_⟩
    · simp [validate, EXPECTED_CLASS, PyVal.cls, leafExtra, VALID, kindName]
    · simp [validate, EXPECTED_CLASS, PyVal.cls, INVALID, kindName]
  · -- Float
    refine ⟨?_, ?_⟩
    · simp [validate, EXPECTED_CLASS, PyVal.cls, leafExtra, VALID, kindName]
    · simp [validate, EXPECTED_CLASS, PyVal.cls, INVALID, kindName]
  · -- Long
    refine ⟨?_, except_unit_not_ok ?_⟩
    · simp only [VALID, kindName]
      rw [show validate ext .Long "Long" (.long 10) =
          Integer_validate 64 (ext.keyToString "Long") 10 from by
        simp [validate, EXPECTED_CLASS, PyVal.cls, leafExtra]]
      rw [Integer_validate_ok_iff]
      decide
    · simp only [INVALID, kindName]
      rw [show validate ext .Long "Long" (.long (2 ^ 68)) =
          Integer_validate 64 (ext.keyToString "Long") (2 ^ 68) from by
        simp [validate, EXPECTED_CLASS, PyVal.cls, leafExtra]]
      rw [Ne, Integer_validate_ok_iff]
      decide
  · -- Short
    refine ⟨?_, except_unit_not_ok ?_⟩
    · simp only [VALID, kindName]
      rw [show validate ext .Short "Short" (.int 0xFFFF) =
          Integer_validate 16 (ext.keyToString "Short") 0xFFFF from by
        simp [validate, EXPECTED_CLASS, PyVal.cls, leafExtra]]
      rw [Integer_validate_ok_iff]
      decide
    · simp only [INVALID, kindName]
      rw [show validate ext .Short "Short" (.int (2 ^ 16)) =
          Integer_validate 16 (ext.keyToString "Short") (2 ^ 16) from by
        simp [validate, EXPECTED_CLASS, PyVal.cls, leafExtra]]
      rw [Ne, Integer_validate_ok_iff]
      decide
  · -- Byte
    refine ⟨?_, except_unit_not_ok ?_⟩
    · simp only [VALID, kindName]
      rw [show validate ext .Byte "Byte" (.int 34) =
          Integer_validate 8 (ext.keyToString "Byte") 34 from by
        simp [validate, EXPECTED_CLASS, PyVal.cls, leafExtra]]
      rw [Integer_validate_ok_iff]
      decide
    · simp only [INVALID, kindName]
      rw [show validate ext .Byte "Byte" (.int (2 ^ 8 + 5)) =
          Integer_validate 8 (ext.keyToString "Byte") (2 ^ 8 + 5) from by
        simp [validate, EXPECTED_CLASS, PyVal.cls, leafExtra]]
      rw [Ne, Integer_validate_ok_iff]
      decide
  · -- Integer
    refine ⟨?_, except_unit_not_ok ?_⟩
    · simp only [VALID, kindName]
      rw [show validate ext .Integer "Integer" (.int 234234252) =
          Integer_validate 32 (ext.keyToString "Integer") 234234252 from by
        simp [validate, EXPECTED_CLASS, PyVal.cls, leafExtra]]
      rw [Integer_validate_ok_iff]
      decide
    · simp only [INVALID, kindName]
      rw [show validate ext .Integer "Integer" (.int 8589934592) =
          Integer_validate 32 (ext.keyToString "Integer") 8589934592 from by
        simp [validate, EXPECTED_CLASS, PyVal.cls, leafExtra]]
      rw [Ne, Integer_validate_ok_iff]
      decide
  · -- IPv4Address
    refine ⟨?_, ?_⟩
    · simp [validate, EXPECTED_CLASS, PyVal.cls, leafExtra, VALID,
        kindName, IPv4_validate, hi1]
    · simp [validate, EXPECTED_CLASS, PyVal.cls, leafExtra, INVALID,
        kindName, IPv4_validate, hi2]

/-- Witness for C6 at the DateTime kind, with a concrete date parser that
accepts exactly the canonical valid example. -/
theorem catalog_valid_invalid_witness :
    validate idExt .DateTime "DateTime"
      (.str "Wed Jul  8 08:52:01 EDT 2015") = .ok () ∧
    ∃ e, validate idExt .DateTime "DateTime"
      (.str "Wed DNE  35 08:52:01 EDT 2015") = .error e := by
  have h := catalog_valid_invalid idExt (by decide) (by decide) .DateTime
    (by decide)
  simpa [VALID, INVALID, kindName] using h
